import Mathlib

/-!
Verification of the QTItoCSVtoQTI converters.

This file gives a shallow embedding of the two codec pipelines of the
repository:

* the encoder `create_qti_zip` of `CSVtoQTI2.py` (CSV row → QTI item XML,
  warnings, running point total, metadata document fields), and
* the decoder `convert_qti_to_csv` of `QTIconverter3.py` (QTI item XML →
  CSV output row, skip/abort behaviour), together with the shared text
  cleaning utilities `clean_text` (QTIconverter3.py) and `clean_html`
  (QTIconverter.py) and the type-string mapping of the older encoder
  `create_qti_zip_from_csv` (CSVtoQTI.py).

Modelling conventions:

* Python strings are Lean `String`s; the scanning primitives (strip,
  upper/lower, `str.isdigit`, the tag-stripping regex `<[^<]+?>` of
  `re.sub`, and `html.unescape`) are implemented on `List Char` by
  structural recursion (fuelled by the list length where the recursion
  is not structural) so that everything evaluates inside the kernel.
  `Char.toUpper`/`Char.toLower`/`Char.isDigit`/`Char.isWhitespace` stand
  in for Python's unicode-aware versions; the claims only exercise ASCII.
* `html.unescape` is Python standard library code (not part of this
  repository); it is modelled with a representative entity table
  (amp/lt/gt/quot/nbsp/apos plus numeric references) following the
  documented longest-match behaviour.  No theorem below depends on the
  completeness of that table.
* Python floats are idealised as exact decimal fixed-point numbers
  (`Dec`), plus `inf`/`-inf`/`nan` (`PyFloat`).  `float(..)` parsing,
  `str(..)` formatting and `f"{..:.2f}"` formatting are modelled for
  exact decimals of moderate magnitude, which is the domain the claims
  exercise; binary rounding artefacts and scientific notation are
  idealised away.
* XML elements (`xml.etree.ElementTree`) are rose trees with tag,
  attributes, optional text, and children.  Namespaces are dropped:
  the encoder puts every element in the single QTI namespace that the
  decoder's `ims:` prefix resolves to, so plain tags are faithful.
* Python `None` becomes `Option.none`; an uncaught exception in the
  decoder's per-item loop (a `TypeError` from `float(None)`) becomes the
  abort result `DecRes.err`; console warnings of the encoder become the
  inductive `EncWarning` (one constructor per `warnings.append` site,
  carrying the data interpolated into the message).
-/

/-! ## Python string primitives -/

/-- Python `str.strip()` on a character list: drop unicode whitespace at
both ends. -/
def pyStripList (cs : List Char) : List Char :=
  ((cs.dropWhile Char.isWhitespace).reverse.dropWhile Char.isWhitespace).reverse

/-- Python `str.strip()`. -/
def pyStrip (s : String) : String := String.mk (pyStripList s.data)

/-- Python `str.upper()` (ASCII fragment). -/
def pyUpper (s : String) : String := String.mk (s.data.map Char.toUpper)

/-- Python `str.lower()` (ASCII fragment). -/
def pyLower (s : String) : String := String.mk (s.data.map Char.toLower)

/-- Python `str.isdigit()`: non-empty and all digits. -/
def pyIsDigit (s : String) : Bool := !s.data.isEmpty && s.data.all Char.isDigit

/-- Value of a decimal digit string (Python `int(..)` on an
`isdigit`-validated string). -/
def digitsVal (cs : List Char) : Nat :=
  cs.foldl (fun a c => a * 10 + (c.toNat - 48)) 0

/-- Python `f"{x}"` for an optional string: `None` prints as `"None"`. -/
def pyReprOptStr : Option String → String
  | some s => s
  | none => "None"

/-! ## The tag-stripping regex `re.sub('<[^<]+?>', '', s)`

A match starts at `<`, lazily consumes one or more characters other than
`<`, and ends at the first `>` thereafter; on a match the engine
continues after the match, otherwise it moves one character forward. -/

/-- Scan for the closing `>` of a candidate tag (after the first
consumed character); abort on `<`. -/
def tagEndGo : List Char → Option (List Char)
  | [] => none
  | c :: rest =>
    if c = '>' then some rest
    else if c = '<' then none
    else tagEndGo rest

/-- Given the characters after a `<`, return the remainder after a
regex match `<[^<]+?>`, if any: at least one non-`<` character must
precede the closing `>`. -/
def tagEnd : List Char → Option (List Char)
  | [] => none
  | c :: rest => if c = '<' then none else tagEndGo rest

/-- One pass of `re.sub('<[^<]+?>', '', s)`, fuelled (each step consumes
at least one character, so fuel `cs.length` is always enough). -/
def stripTagsF : Nat → List Char → List Char
  | 0, cs => cs
  | _ + 1, [] => []
  | n + 1, c :: rest =>
    if c = '<' then
      match tagEnd rest with
      | some rest2 => stripTagsF n rest2
      | none => '<' :: stripTagsF n rest
    else c :: stripTagsF n rest

/-- `re.sub('<[^<]+?>', '', s)` on a character list. -/
def stripTags (cs : List Char) : List Char := stripTagsF cs.length cs

/-! ## `html.unescape` (Python stdlib, modelled)

Modelled from the Python standard library `html.unescape`, restricted to
a representative entity table (the html5 table additionally contains
many named entities not used by this repository's data).  Python matches
`&` followed by a named entity (longest match, trailing `;` optional for
the legacy names in the table) or a numeric character reference. -/

/-- Representative fragment of the html5 entity table, longest keys
first so that prefix matching below picks the longest match, as Python
does. -/
def entityTable : List (String × String) :=
  [("quot;", "\""), ("nbsp;", " "), ("apos;", String.mk [Char.ofNat 39]),
   ("amp;", "&"), ("quot", "\""), ("nbsp", " "),
   ("amp", "&"), ("lt;", "<"), ("gt;", ">"), ("lt", "<"), ("gt", ">")]

/-- Take a maximal run of decimal digits. -/
def takeDigits : List Char → List Char × List Char
  | [] => ([], [])
  | c :: rest =>
    if c.isDigit then
      let (d, r) := takeDigits rest
      (c :: d, r)
    else ([], c :: rest)

/-- Match one entity reference after a `&`: the replacement characters
and the remaining input.  Numeric references `&#NNN;` (decimal) are
decoded with `Char.ofNat`; named references use `entityTable`. -/
def matchEntity (cs : List Char) : Option (List Char × List Char) :=
  match cs with
  | '#' :: rest =>
    match takeDigits rest with
    | ([], _) => none
    | (ds, r) =>
      let c := Char.ofNat (digitsVal ds)
      match r with
      | ';' :: r2 => some ([c], r2)
      | _ => some ([c], r)
  | _ =>
    (entityTable.findSome? fun kv =>
      if kv.1.data.isPrefixOf cs then some (kv.2.data, cs.drop kv.1.length)
      else none)

/-- One pass of entity replacement, fuelled by the input length;
replacements are not rescanned (as with `re.sub`). -/
def unescF : Nat → List Char → List Char
  | 0, cs => cs
  | _ + 1, [] => []
  | n + 1, c :: rest =>
    if c = '&' then
      match matchEntity rest with
      | some (rep, rest2) => rep ++ unescF n rest2
      | none => '&' :: unescF n rest
    else c :: unescF n rest

/-- Python `html.unescape` (which returns its input unchanged when it
contains no `&`). -/
def pyUnescape (s : String) : String :=
  if '&' ∈ s.data then String.mk (unescF s.data.length s.data) else s

/-! ## The shared text-cleaning utilities -/

/-- `clean_text` of `QTIconverter3.py` (lines 10-17): falsy input (Python
`None` or `""`) gives `""`; otherwise strip tags, unescape entities, and
strip surrounding whitespace. -/
def clean_text (raw : Option String) : String :=
  match raw with
  | none => ""
  | some s => if s = "" then "" else pyStrip (pyUnescape (String.mk (stripTags s.data)))

/-- `clean_html` of `QTIconverter.py` (lines 7-14): like `clean_text`
but with no entity unescaping. -/
def clean_html (raw : Option String) : String :=
  match raw with
  | none => ""
  | some s => if s = "" then "" else pyStrip (String.mk (stripTags s.data))

/-! ## Python floats, idealised as exact decimals -/

/-- Decimal fixed point number: value `num / 10 ^ exp`. -/
structure Dec where
  num : Int
  exp : Nat
deriving DecidableEq

/-- Exact addition of decimals (models float `+` on the exact-decimal
domain). -/
def Dec.add (a b : Dec) : Dec :=
  let e := max a.exp b.exp
  ⟨a.num * (10 : Int) ^ (e - a.exp) + b.num * (10 : Int) ^ (e - b.exp), e⟩

/-- A Python float: finite (exact decimal), infinities, or nan. -/
inductive PyFloat where
  | fin (d : Dec)
  | inf
  | ninf
  | nan
deriving DecidableEq

/-- Float addition (`total_points += points`). -/
def PyFloat.add : PyFloat → PyFloat → PyFloat
  | .fin x, .fin y => .fin (x.add y)
  | .nan, _ => .nan
  | _, .nan => .nan
  | .inf, .inf => .inf
  | .inf, .ninf => .nan
  | .ninf, .inf => .nan
  | .ninf, .ninf => .ninf
  | .inf, .fin _ => .inf
  | .fin _, .inf => .inf
  | .ninf, .fin _ => .ninf
  | .fin _, .ninf => .ninf

/-- Zero. -/
def PyFloat.zero : PyFloat := .fin ⟨0, 0⟩

/-- Optional sign at the head of a numeric literal; returns
(isNegative, rest). -/
def parseSign : List Char → Bool × List Char
  | '+' :: r => (false, r)
  | '-' :: r => (true, r)
  | r => (false, r)

/-- Split at the first occurrence of a character satisfying `p`:
(before, rest after the separator, if found). -/
def splitFirst (p : Char → Bool) : List Char → List Char × Option (List Char)
  | [] => ([], none)
  | c :: rest =>
    if p c then ([], some rest)
    else
      let (a, b) := splitFirst p rest
      (c :: a, b)

/-- Validate and remove underscore digit separators (Python allows `_`
strictly between two digits). -/
def deUnderscore : Option Char → List Char → Option (List Char)
  | _, [] => some []
  | prev, '_' :: rest =>
    match prev, rest with
    | some p, r1 :: _ =>
      if p.isDigit && r1.isDigit then deUnderscore (some '_') rest
      else none
    | _, _ => none
  | _, c :: rest => (deUnderscore (some c) rest).map (c :: ·)

/-- Build the finite float from sign, integer digits, fractional digits
and decimal exponent. -/
def decOfParts (neg : Bool) (intD fracD : List Char) (ex : Int) : Dec :=
  let m : Int := Int.ofNat (digitsVal (intD ++ fracD))
  let m := if neg then -m else m
  if ex ≥ 0 then ⟨m * (10 : Int) ^ ex.toNat, fracD.length⟩
  else ⟨m, fracD.length + (-ex).toNat⟩

/-- Parse the mantissa/exponent part of a float literal (after sign,
special names and underscores have been handled). -/
def parseMantExp (neg : Bool) (cs : List Char) : Option PyFloat :=
  let (mant, expPart) := splitFirst (fun c => c = 'e' || c = 'E') cs
  let (intD, fracOpt) := splitFirst (fun c => c = '.') mant
  let fracD := fracOpt.getD []
  if intD.isEmpty && fracD.isEmpty then none
  else if !(intD.all Char.isDigit) || !(fracD.all Char.isDigit) then none
  else
    match expPart with
    | none => some (.fin (decOfParts neg intD fracD 0))
    | some e =>
      let (eneg, ed) := parseSign e
      if ed.isEmpty || !(ed.all Char.isDigit) then none
      else
        let ev : Int := Int.ofNat (digitsVal ed)
        some (.fin (decOfParts neg intD fracD (if eneg then -ev else ev)))

/-- Python `float(s)`: strip whitespace, optional sign, `inf`/`infinity`
/`nan` (case-insensitive), or a decimal literal with optional fraction
and exponent and underscore separators.  `none` models `ValueError`. -/
def pyFloat? (s : String) : Option PyFloat :=
  let cs := pyStripList s.data
  let (neg, cs1) := parseSign cs
  let low := cs1.map Char.toLower
  if low = "inf".data || low = "infinity".data then
    some (if neg then .ninf else .inf)
  else if low = "nan".data then some .nan
  else
    match deUnderscore none cs1 with
    | none => none
    | some cs2 => parseMantExp neg cs2

/-- Left-pad a string with zeros to length `k`. -/
def padZeros (k : Nat) (s : String) : String :=
  if k ≤ s.data.length then s
  else String.mk (List.replicate (k - s.data.length) '0') ++ s

/-- Remove trailing zeros of the fractional part (fuelled by the
exponent). -/
def decReduceF : Nat → Int → Nat → Dec
  | 0, n, e => ⟨n, e⟩
  | f + 1, n, e =>
    if e = 0 then ⟨n, 0⟩
    else if n % 10 = 0 then decReduceF f (n / 10) (e - 1)
    else ⟨n, e⟩

/-- Canonical form of a decimal: no trailing fractional zeros. -/
def Dec.reduce (d : Dec) : Dec := decReduceF d.exp d.num d.exp

/-- Python `str(x)` for a float, on the exact-decimal domain: minimal
digits, at least one fractional digit (`str(5.0) = "5.0"`).  Scientific
notation for very small/large magnitudes is not modelled. -/
def pyFloatStr : PyFloat → String
  | .fin d =>
    let r := d.reduce
    let sgn := if r.num < 0 then "-" else ""
    let m := r.num.natAbs
    if r.exp = 0 then sgn ++ toString m ++ ".0"
    else sgn ++ toString (m / 10 ^ r.exp) ++ "." ++ padZeros r.exp (toString (m % 10 ^ r.exp))
  | .inf => "inf"
  | .ninf => "-inf"
  | .nan => "nan"

/-- Python `f"{x:.2f}"`: round to two decimals, half to even. -/
def format2f : PyFloat → String
  | .fin d =>
    let p : Int := (10 : Int) ^ d.exp
    let scaled : Int := d.num * 100
    let q := scaled / p
    let r := scaled % p
    let n := if 2 * r < p then q else if p < 2 * r then q + 1 else if q % 2 = 0 then q else q + 1
    let sgn := if n < 0 then "-" else ""
    sgn ++ toString (n.natAbs / 100) ++ "." ++ padZeros 2 (toString (n.natAbs % 100))
  | .inf => "inf"
  | .ninf => "-inf"
  | .nan => "nan"

/-! ## XML elements (`xml.etree.ElementTree`, modelled) -/

mutual
/-- An XML element: tag, attributes, text (the `.text` of ElementTree,
`none` when the element has no text node), children. -/
inductive XML where
  | el (tag : String) (attrs : List (String × String)) (text : Option String) (children : XList)
/-- Children list (a separate inductive so that recursion over the tree
is structural). -/
inductive XList where
  | nil : XList
  | cons (x : XML) (xs : XList) : XList
end

/-- Children list from a Lean list. -/
def XList.ofList : List XML → XList
  | [] => .nil
  | x :: xs => .cons x (XList.ofList xs)

/-- Element constructor taking a Lean list of children. -/
def xel (tag : String) (attrs : List (String × String)) (text : Option String)
    (children : List XML) : XML :=
  .el tag attrs text (XList.ofList children)

/-- Children list back to a Lean list. -/
def XList.toList : XList → List XML
  | .nil => []
  | .cons x xs => x :: XList.toList xs

/-- Tag of an element. -/
def XML.tag : XML → String
  | .el t _ _ _ => t

/-- Attribute list of an element. -/
def XML.attrsOf : XML → List (String × String)
  | .el _ a _ _ => a

/-- Text of an element (`elem.text`). -/
def XML.textOf : XML → Option String
  | .el _ _ s _ => s

/-- Children of an element, as a Lean list. -/
def XML.children : XML → List XML
  | .el _ _ _ cs => XList.toList cs

/-- `elem.get(name)`: attribute lookup. -/
def XML.attr (x : XML) (k : String) : Option String :=
  (x.attrsOf.find? (fun p => p.1 == k)).map (·.2)

mutual
/-- All proper descendants of an element, in document (preorder)
order — the node set of `elem.findall('.//tag')` before tag
filtering. -/
def XML.desc : XML → List XML
  | .el _ _ _ cs => XList.desc cs
/-- Descendants of every node of a children list, each node included,
in document order. -/
def XList.desc : XList → List XML
  | .nil => []
  | .cons x xs => x :: XML.desc x ++ XList.desc xs
end

/-- Direct children with a given tag (`elem.findall('tag')`). -/
def XML.childrenTagged (x : XML) (t : String) : List XML :=
  x.children.filter (fun c => c.tag == t)

/-- First direct child with a given tag (`elem.find('tag')`). -/
def XML.childTagged (x : XML) (t : String) : Option XML :=
  (x.childrenTagged t).head?

/-- All descendants with a given tag (`elem.findall('.//tag')`). -/
def XML.findAllDesc (x : XML) (t : String) : List XML :=
  x.desc.filter (fun c => c.tag == t)

/-- First descendant with a given tag (`elem.find('.//tag')`). -/
def XML.findDesc (x : XML) (t : String) : Option XML :=
  (x.findAllDesc t).head?

/-! ## Encoder: `create_qti_zip` of `CSVtoQTI2.py`

One CSV row (`csv.DictReader` row: a partial map from column name to
string, `Option String` per recognised column, `Option String`-valued
functions for the numbered columns). -/

/-- One input CSV row.  `none` models a missing column. -/
structure Row where
  type? : Option String
  title? : Option String
  points? : Option String
  body? : Option String
  correct? : Option String
  opt? : Nat → Option String
  gen? : Option String
  cor? : Option String
  inc? : Option String
  fb? : Nat → Option String

/-- A validation warning recorded by the encoder (one constructor per
`warnings.append` site of `create_qti_zip`, carrying the interpolated
data; the console rendering of the message is presentation). -/
inductive EncWarning where
  | invalidPoints (rowNum : Nat) (raw : String)
  | noOptions (rowNum : Nat) (title : String)
  | unknownType (rowNum : Nat) (qtype : String)
  | missingCorrect (rowNum : Nat)
  | rangeCorrect (rowNum : Nat) (raw : String) (count : Nat)
deriving DecidableEq

/-- Line 42: `row.get('Type', 'MC').upper().strip()`. -/
def rowQType (r : Row) : String := pyStrip (pyUpper (r.type?.getD "MC"))

/-- Line 43: `row.get('Title', f'Question {i+1}')`. -/
def rowTitle (i : Nat) (r : Row) : String :=
  r.title?.getD ("Question " ++ toString (i + 1))

/-- Line 44: `row.get('Question Body', '')`. -/
def rowBody (r : Row) : String := r.body?.getD ""

/-- Lines 47-51, value part: `float(row.get('Points', 0))`, defaulting
to `0.0` on `ValueError`. -/
def rowPointsVal (r : Row) : PyFloat :=
  match r.points? with
  | none => PyFloat.zero
  | some s =>
    match pyFloat? s with
    | some v => v
    | none => PyFloat.zero

/-- Lines 47-51, warning part. -/
def rowPointsWarns (i : Nat) (r : Row) : List EncWarning :=
  match r.points? with
  | none => []
  | some s =>
    match pyFloat? s with
    | some _ => []
    | none => [.invalidPoints (i + 2) s]

/-- Lines 54-66: option construction.  TF gets the fixed pair; MC
collects the non-empty stripped `Option 1..5` cells; any other type
token gets an empty list and an unknown-type warning. -/
def rowAnswers (i : Nat) (r : Row) : List String × List EncWarning :=
  let qt := rowQType r
  if qt = "TF" then (["True", "False"], [])
  else if qt = "MC" then
    let ans := [1, 2, 3, 4, 5].filterMap fun x =>
      let v := pyStrip ((r.opt? x).getD "")
      if v = "" then none else some v
    (ans, if ans.isEmpty then [.noOptions (i + 2) (rowTitle i r)] else [])
  else ([], [.unknownType (i + 2) qt])

/-- Line 69: `row.get('Correct Answer', '').strip()`. -/
def rawCorrect (r : Row) : String := pyStrip ((r.correct?).getD "")

/-- Lines 70-80: correct-answer validation.  A digit string is
converted to a 0-based index (`int(raw) - 1`); a non-digit string warns
and gives `-1`; an index outside `[0, nAns)` (other than `-1` itself)
warns and is invalidated to `-1`. -/
def correctStep (i : Nat) (raw : String) (nAns : Nat) : Int × List EncWarning :=
  let c1 : Int × List EncWarning :=
    if pyIsDigit raw then ((digitsVal raw.data : Int) - 1, [])
    else (-1, [.missingCorrect (i + 2)])
  if c1.1 ≠ -1 ∧ (c1.1 < 0 ∨ (nAns : Int) ≤ c1.1) then
    (-1, c1.2 ++ [.rangeCorrect (i + 2) raw nAns])
  else c1

/-- Line 92: `"true_false_question" if q_type == 'TF' else
"multiple_choice_question"`. -/
def qTypeStr (q_type : String) : String :=
  if q_type = "TF" then "true_false_question" else "multiple_choice_question"

/-- Line 67 of `CSVtoQTI.py` (older encoder): `"multiple_choice_question"
if q_type == "MC" else "multiple_response_question"`. -/
def qTypeStrV1 (q_type : String) : String :=
  if q_type = "MC" then "multiple_choice_question" else "multiple_response_question"

/-- Lines 127-132: `add_feedback(ident, text)` — emits one itemfeedback
block when `text` is truthy.  NOTE (faithful to the source): the inner
`ET.Element("mattext", {...}, text=...)` passes `text` as a keyword
argument, which ElementTree merges into the ATTRIBUTE dictionary; the
element's text content remains `None`. -/
def addFeedback (ident : String) (text : Option String) : List XML :=
  match text with
  | none => []
  | some t =>
    if t = "" then []
    else
      [xel "itemfeedback" [("ident", ident)] none
        [xel "flow_mat" [] none
          [xel "material" [] none
            [xel "mattext" [("texttype", "text/html"), ("text", "<p>" ++ t ++ "</p>")] none []]]]]

/-- Result of encoding one row: the item element, the warnings the row
produced, and its parsed points (added into the running total). -/
structure EncRow where
  item : XML
  warnings : List EncWarning
  points : PyFloat

/-- Lines 38-142 of `create_qti_zip`: encode one CSV row (0-based index
`i`; warnings cite row number `i + 2`) into one `item` element.
`itemId` is the item's generated uuid identifier and `aid k` the uuid
identifier generated for the `k`-th answer. -/
def encodeRow (i : Nat) (itemId : String) (aid : Nat → String) (r : Row) : EncRow :=
  let qt := rowQType r
  let pts := rowPointsVal r
  let answers := (rowAnswers i r).1
  let wA := (rowAnswers i r).2
  let cidx := (correctStep i (rawCorrect r) answers.length).1
  let wC := (correctStep i (rawCorrect r) answers.length).2
  let answerIds := (List.range answers.length).map aid
  let metadata := xel "itemmetadata" [] none
    [xel "qtimetadata" [] none
      [xel "qtimetadatafield" [] none
        [xel "fieldlabel" [] (some "question_type") [],
         xel "fieldentry" [] (some (qTypeStr qt)) []],
       xel "qtimetadatafield" [] none
        [xel "fieldlabel" [] (some "points_possible") [],
         xel "fieldentry" [] (some (pyFloatStr pts)) []]]]
  let presentation := xel "presentation" [] none
    [xel "material" [] none
      [xel "mattext" [("texttype", "text/html")]
        (some ("<div><p>" ++ rowBody r ++ "</p></div>")) []],
     xel "response_lid" [("ident", "response1"), ("rcardinality", "Single")] none
      [xel "render_choice" [] none
        (answers.mapIdx fun k a =>
          xel "response_label" [("ident", aid k)] none
            [xel "material" [] none
              [xel "mattext" [("texttype", "text/plain")] (some a) []]])]]
  let outcomes := xel "outcomes" [] none
    [xel "decvar" [("maxvalue", "100"), ("minvalue", "0"), ("varname", "SCORE"),
       ("vartype", "Decimal")] none []]
  let resConds :=
    if cidx = -1 then []
    else
      [xel "respcondition" [("continue", "No")] none
        [xel "conditionvar" [] none
          [xel "varequal" [("respident", "response1")]
            (some (answerIds.getD cidx.toNat "")) []],
         xel "setvar" [("action", "Set"), ("varname", "SCORE")] (some "100") []]]
  let resprocessing := xel "resprocessing" [] none (outcomes :: resConds)
  let fbs := addFeedback "general_fb" r.gen? ++ addFeedback "correct_fb" r.cor? ++
    addFeedback "general_incorrect_fb" r.inc?
  let perFbs :=
    if qt = "TF" then []
    else
      [1, 2, 3, 4, 5].flatMap fun x =>
        if x - 1 < answerIds.length then
          addFeedback (answerIds.getD (x - 1) "" ++ "_fb") (r.fb? x)
        else []
  ⟨xel "item" [("ident", itemId), ("title", rowTitle i r)] none
     ([metadata, presentation, resprocessing] ++ fbs ++ perFbs),
   rowPointsWarns i r ++ wA ++ wC, pts⟩

/-- Document-level accumulation of `create_qti_zip`: items, warnings in
order, the running `total_points`, and `question_count`. -/
structure EncodeOut where
  items : List XML
  warnings : List EncWarning
  total : PyFloat
  count : Nat

/-- Loop of `create_qti_zip` over the rows (left-to-right accumulation,
like the Python loop). -/
def encodeRowsGo (itemIds : Nat → String) (aids : Nat → Nat → String) :
    Nat → EncodeOut → List Row → EncodeOut
  | _, acc, [] => acc
  | i, acc, r :: rest =>
    let e := encodeRow i (itemIds i) (aids i) r
    encodeRowsGo itemIds aids (i + 1)
      ⟨acc.items ++ [e.item], acc.warnings ++ e.warnings,
       PyFloat.add acc.total e.points, acc.count + 1⟩ rest

/-- Encode a whole CSV (the per-row part of `create_qti_zip`). -/
def encodeRows (itemIds : Nat → String) (aids : Nat → Nat → String)
    (rows : List Row) : EncodeOut :=
  encodeRowsGo itemIds aids 0 ⟨[], [], PyFloat.zero, 0⟩ rows

/-- Line 180: `points_possible` text of the metadata document,
`str(total_points)`. -/
def metaPointsText (o : EncodeOut) : String := pyFloatStr o.total

/-- Specification-side total: the arithmetic sum of the per-record
points, accumulated like the source accumulates them. -/
def sumPoints (rows : List Row) : PyFloat :=
  rows.foldl (fun t r => PyFloat.add t (rowPointsVal r)) PyFloat.zero

/-! Shallow extractors on the encoder's item shape (the encoder places
respconditions directly under `resprocessing` and feedback blocks and
the option labels at fixed positions, so no recursive search is
needed to state facts about them). -/

/-- The `respcondition` elements of an item's `resprocessing` blocks. -/
def respconditionsOf (x : XML) : List XML :=
  (x.childrenTagged "resprocessing").flatMap fun rp => rp.childrenTagged "respcondition"

/-- The `itemfeedback` blocks of an item. -/
def itemFeedbacksOf (x : XML) : List XML := x.childrenTagged "itemfeedback"

/-- The option (`response_label`) elements of an item, through
`presentation / response_lid / render_choice`. -/
def optionLabelsOf (x : XML) : List XML :=
  (((x.childrenTagged "presentation").flatMap fun p => p.childrenTagged "response_lid").flatMap
      fun l => l.childrenTagged "render_choice").flatMap
    fun rc => rc.childrenTagged "response_label"

/-! ## Decoder: `convert_qti_to_csv` of `QTIconverter3.py` -/

/-- One output CSV row (all 18 columns, initialised to `""`). -/
structure OutRow where
  typeCol : String
  titleCol : String
  pointsCol : String
  bodyCol : String
  correctCol : String
  opt1 : String
  opt2 : String
  opt3 : String
  opt4 : String
  opt5 : String
  genCol : String
  corCol : String
  incCol : String
  fb1 : String
  fb2 : String
  fb3 : String
  fb4 : String
  fb5 : String
deriving DecidableEq

/-- Per-item decode result: an output row, a skip (unsupported declared
type), or an uncaught exception aborting the whole conversion. -/
inductive DecRes where
  | err : DecRes
  | skip : DecRes
  | row (r : OutRow) : DecRes
deriving DecidableEq

/-- `item.findall('.//ims:qtimetadatafield', ns)`. -/
def metaFields (x : XML) : List XML := x.findAllDesc "qtimetadatafield"

/-- Lines 62-69: the `question_type` metadata value.  Starts as `""`;
each field labelled `question_type` overwrites it with the entry's text
(`none` when the `fieldentry` element exists but carries no text), or
`""` when the `fieldentry` element is absent. -/
def qtypeMetaOf (fields : List XML) : Option String :=
  fields.foldl
    (fun acc f =>
      match f.childTagged "fieldlabel" with
      | some lbl =>
        if lbl.textOf = some "question_type" then
          match f.childTagged "fieldentry" with
          | some e => e.textOf
          | none => some ""
        else acc
      | none => acc)
    (some "")

/-- Lines 71-77: the `Points` cell.  Starts as `""`; each field
labelled `points_possible` replaces it with `f"{float(raw):.2f}"`, or
`"0.00"` when `float` raises `ValueError`; a `fieldentry` element that
is present but has no text makes `raw` Python `None`, and `float(None)`
raises an uncaught `TypeError` — modelled as `none` (whole-conversion
abort). -/
def pointsCellOf (fields : List XML) : Option String :=
  fields.foldl
    (fun acc f =>
      match acc with
      | none => none
      | some cur =>
        match f.childTagged "fieldlabel" with
        | some lbl =>
          if lbl.textOf = some "points_possible" then
            match (match f.childTagged "fieldentry" with
                   | some e => e.textOf
                   | none => some "0") with
            | some raw =>
              match pyFloat? raw with
              | some v => some (format2f v)
              | none => some "0.00"
            | none => none
          else some cur
        | none => some cur)
    (some "")

/-- Line 80: the accepted `question_type` metadata values. -/
def supportedList : List (Option String) :=
  [some "multiple_choice_question", some "true_false_question",
   some "multiple_response_question", some ""]

/-- Whether an item's declared type passes the line-80 support check. -/
def supportedB (x : XML) : Bool :=
  supportedList.contains (qtypeMetaOf (metaFields x))

/-- Lines 91-93: the question body — first `mattext` below a
`presentation` element, cleaned. -/
def bodyCellOf (x : XML) : String :=
  match ((x.findAllDesc "presentation").flatMap fun p => p.findAllDesc "mattext").head? with
  | some m => clean_text m.textOf
  | none => ""

/-- Lines 96-101: `.//render_choice/response_label`, capped at 5 (the
`if i >= 5: break`). -/
def respLabelsOf (x : XML) : List XML :=
  ((x.findAllDesc "render_choice").flatMap fun rc =>
    rc.childrenTagged "response_label").take 5

/-- Lines 102-107: cleaned option texts, in document order. -/
def answerTextsOf (x : XML) : List String :=
  (respLabelsOf x).map fun l =>
    match l.findDesc "mattext" with
    | some m => clean_text m.textOf
    | none => ""

/-- Lines 106: the option identifiers (`label.get('ident')`, possibly
`None`). -/
def answerIdsOf (x : XML) : List (Option String) :=
  (respLabelsOf x).map fun l => l.attr "ident"

/-- Lines 109-115: the type re-detection heuristic. -/
def typeCellOf (x : XML) : String :=
  let lowers := (answerTextsOf x).map pyLower
  if lowers.length == 2 && lowers.contains "true" && lowers.contains "false" then "TF"
  else "MC"

/-- Lines 118-126: find the first respcondition whose `setvar` with
`action='Set'` has text `'100'` and take its `varequal` text; a
condition with such a `setvar` but no `varequal` is passed over. -/
def correctIdGo : List XML → Option String
  | [] => none
  | c :: rest =>
    match ((c.findAllDesc "setvar").filter fun s => s.attr "action" == some "Set").head? with
    | some sv =>
      if sv.textOf = some "100" then
        match c.findDesc "varequal" with
        | some v => v.textOf
        | none => correctIdGo rest
      else correctIdGo rest
    | none => correctIdGo rest

/-- The correct-answer identifier of an item, if a scoring rule names
one. -/
def correctIdOf (x : XML) : Option String := correctIdGo (x.findAllDesc "respcondition")

/-- Lines 128-129: resolve the identifier against the option identifier
list to a 1-based index cell. -/
def correctCellOf (x : XML) : String :=
  let ids := answerIdsOf x
  let cid := correctIdOf x
  if ids.contains cid then toString (ids.indexOf cid + 1) else ""

/-- Lines 132-136: the feedback dictionary — block identifier
(possibly `None`) to cleaned text, later entries overwriting earlier
ones. -/
def feedbackMapOf (x : XML) : List (Option String × String) :=
  (x.findAllDesc "itemfeedback").map fun fb =>
    (fb.attr "ident",
     match fb.findDesc "mattext" with
     | some m => clean_text m.textOf
     | none => "")

/-- Dictionary lookup with default `""` (`feedbacks.get(k, '')`): last
binding wins. -/
def fbGet (d : List (Option String × String)) (k : Option String) : String :=
  match (d.filter fun p => p.1 == k).getLast? with
  | some p => p.2
  | none => ""

/-- Dictionary membership (`key in feedbacks`). -/
def fbHas (d : List (Option String × String)) (k : Option String) : Bool :=
  d.any fun p => p.1 == k

/-- Lines 142-145: the `Feedback j+1` cell — looked up under the key
`f"{aid}_fb"` for the `j`-th option identifier (Python renders a `None`
identifier as the string `"None"`). -/
def fbCellOf (x : XML) (j : Nat) : String :=
  match (answerIdsOf x)[j]? with
  | some aid =>
    let key : Option String := some (pyReprOptStr aid ++ "_fb")
    if fbHas (feedbackMapOf x) key then fbGet (feedbackMapOf x) key else ""
  | none => ""

/-- Assemble the output row of one supported item (lines 88-147), given
the already-computed `Points` cell. -/
def buildRow (x : XML) (pts : String) : OutRow :=
  ⟨typeCellOf x, (x.attr "title").getD "Question", pts, bodyCellOf x, correctCellOf x,
   (answerTextsOf x).getD 0 "", (answerTextsOf x).getD 1 "", (answerTextsOf x).getD 2 "",
   (answerTextsOf x).getD 3 "", (answerTextsOf x).getD 4 "",
   fbGet (feedbackMapOf x) (some "general_fb"), fbGet (feedbackMapOf x) (some "correct_fb"),
   fbGet (feedbackMapOf x) (some "general_incorrect_fb"),
   fbCellOf x 0, fbCellOf x 1, fbCellOf x 2, fbCellOf x 3, fbCellOf x 4⟩

/-- Decode one item (the body of the `for item in ...` loop, lines
57-148): abort on the `TypeError` of the points scan, skip unsupported
declared types, otherwise emit a row. -/
def decodeItem (x : XML) : DecRes :=
  match pointsCellOf (metaFields x) with
  | none => .err
  | some pts =>
    if supportedB x then .row (buildRow x pts) else .skip

/-- Decode a list of items: the emitted rows and the skipped count
(`skipped_count`); `none` models the conversion aborting on an uncaught
exception. -/
def decodeItems : List XML → Option (List OutRow × Nat)
  | [] => some ([], 0)
  | x :: xs =>
    match decodeItem x with
    | .err => none
    | .skip => (decodeItems xs).map fun p => (p.1, p.2 + 1)
    | .row r => (decodeItems xs).map fun p => (r :: p.1, p.2)

/-! ## Concrete inputs used by witnesses and counterexamples

Identifier supplies stand in for the `uuid.uuid4().hex` generators (the
generated identifiers are opaque; these concrete ones share their shape:
distinct, starting with `i`). -/

/-- A concrete answer-identifier supply. -/
def exAid : Nat → String := fun k => "ia" ++ toString k

/-- A concrete item-identifier supply. -/
def exIds : Nat → String := fun k => "iq" ++ toString k

/-- A concrete per-row answer-identifier supply. -/
def exAids : Nat → Nat → String := fun _ k => "ia" ++ toString k

/-- No numbered column present. -/
def noOpt : Nat → Option String := fun _ => none

/-- The end-to-end example row of the specification (§8), plus a
general-feedback text. -/
def c1row : Row := ⟨some "MC", some "Q1", some "5", some "2+2=?", some "2",
  fun n => if n = 1 then some "3" else if n = 2 then some "4" else if n = 3 then some "5" else none,
  some "hi", none, none, noOpt⟩

/-- An MC row whose `Correct Answer` is the digit string `"0"`. -/
def zeroRow : Row := ⟨some "MC", some "Z", some "1", some "b", some "0",
  fun n => if n = 1 then some "A" else if n = 2 then some "B" else none, none, none, none, noOpt⟩

/-- A row with the unrecognised type token `"XX"` and a non-empty
`Option 1` column. -/
def c7row : Row := ⟨some "XX", some "U", some "1", some "b", some "1",
  fun n => if n = 1 then some "A" else none, none, none, none, noOpt⟩

/-- A TF row with general feedback and a non-empty `Feedback 1`
column. -/
def tfRow : Row := ⟨some "TF", some "T", some "1", some "b", some "1", noOpt,
  some "g", none, none, fun n => if n = 1 then some "x" else none⟩

/-- A single 5-point question row. -/
def fiveRow : Row := ⟨some "MC", some "F", some "5", some "b", some "1",
  fun n => if n = 1 then some "A" else if n = 2 then some "B" else none, none, none, none, noOpt⟩

/-- A decoder-side item whose `points_possible` field has a `fieldentry`
element with the given text (`none` models `<fieldentry/>`, whose
ElementTree `.text` is `None`). -/
def ptsItem (entryText : Option String) : XML :=
  xel "item" [("ident", "i1"), ("title", "P")] none
    [xel "itemmetadata" [] none
      [xel "qtimetadata" [] none
        [xel "qtimetadatafield" [] none
          [xel "fieldlabel" [] (some "question_type") [],
           xel "fieldentry" [] (some "multiple_choice_question") []],
         xel "qtimetadatafield" [] none
          [xel "fieldlabel" [] (some "points_possible") [],
           xel "fieldentry" [] entryText []]]],
     xel "presentation" [] none
      [xel "material" [] none [xel "mattext" [("texttype", "text/plain")] (some "Body") []],
       xel "response_lid" [("ident", "response1")] none
        [xel "render_choice" [] none
          [xel "response_label" [("ident", "ia0")] none
            [xel "material" [] none [xel "mattext" [] (some "A") []]]]]]]

/-- A decoder-side item of declared type `essay_question`. -/
def essayItem : XML :=
  xel "item" [("ident", "e1"), ("title", "E")] none
    [xel "itemmetadata" [] none
      [xel "qtimetadata" [] none
        [xel "qtimetadatafield" [] none
          [xel "fieldlabel" [] (some "question_type") [],
           xel "fieldentry" [] (some "essay_question") []]]]]

/-- A decoder-side item with options `True`/`False` but metadata
corrupted to `multiple_choice_question`. -/
def corruptItem : XML :=
  xel "item" [("ident", "c1"), ("title", "C")] none
    [xel "itemmetadata" [] none
      [xel "qtimetadata" [] none
        [xel "qtimetadatafield" [] none
          [xel "fieldlabel" [] (some "question_type") [],
           xel "fieldentry" [] (some "multiple_choice_question") []]]],
     xel "presentation" [] none
      [xel "material" [] none [xel "mattext" [] (some "Body") []],
       xel "response_lid" [("ident", "response1")] none
        [xel "render_choice" [] none
          [xel "response_label" [("ident", "ia0")] none
            [xel "material" [] none [xel "mattext" [] (some "True") []]],
           xel "response_label" [("ident", "ia1")] none
            [xel "material" [] none [xel "mattext" [] (some "False") []]]]]]]

/-- The row `corruptItem` decodes to. -/
def corruptOut : OutRow :=
  ⟨"TF", "C", "", "Body", "", "True", "False", "", "", "", "", "", "", "", "", "", "", ""⟩

/-- The row `ptsItem (some "2")` decodes to. -/
def ptsOut : OutRow :=
  ⟨"MC", "P", "2.00", "Body", "", "A", "", "", "", "", "", "", "", "", "", "", "", ""⟩

/-! # Theorems -/

/-! ## General helper lemmas -/

theorem toList_ofList : ∀ l : List XML, XList.toList (XList.ofList l) = l
  | [] => rfl
  | x :: xs => by rw [XList.ofList, XList.toList, toList_ofList xs]

theorem children_xel (t : String) (a : List (String × String)) (s : Option String)
    (cs : List XML) : (xel t a s cs).children = cs := by
  rw [xel, XML.children, toList_ofList]

theorem tag_xel (t : String) (a : List (String × String)) (s : Option String)
    (cs : List XML) : (xel t a s cs).tag = t := rfl

theorem encodeRow_points (i : Nat) (itemId : String) (aid : Nat → String) (r : Row) :
    (encodeRow i itemId aid r).points = rowPointsVal r := rfl

theorem encodeRow_warnings (i : Nat) (itemId : String) (aid : Nat → String) (r : Row) :
    (encodeRow i itemId aid r).warnings =
      rowPointsWarns i r ++ (rowAnswers i r).2 ++
        (correctStep i (rawCorrect r) (rowAnswers i r).1.length).2 := rfl

/-! ## C6: encoder type-string mapping -/

/-- C6 (amended): the current encoder `create_qti_zip` maps `MC` to
`multiple_choice_question`, `TF` to `true_false_question`, and every
other (unrecognised) type value defensively to
`multiple_choice_question`; the older encoder `create_qti_zip_from_csv`
of `CSVtoQTI.py`, however, maps `MC` to `multiple_choice_question` and
every other value — including `TF` — to `multiple_response_question`. -/
theorem C6_type_mapping :
    qTypeStr "MC" = "multiple_choice_question" ∧
    qTypeStr "TF" = "true_false_question" ∧
    (∀ s : String, s ≠ "TF" → qTypeStr s = "multiple_choice_question") ∧
    qTypeStrV1 "MC" = "multiple_choice_question" ∧
    (∀ s : String, s ≠ "MC" → qTypeStrV1 s = "multiple_response_question") := by
  refine ⟨by decide, by decide, ?_, by decide, ?_⟩ <;>
    · intro s h
      simp [qTypeStr, qTypeStrV1, h]

/-- C6 counterexample: the older encoder emits
`multiple_response_question`, not `true_false_question`, for a `TF`
record. -/
theorem C6_counterexample :
    qTypeStrV1 "TF" = "multiple_response_question" ∧
    qTypeStrV1 "TF" ≠ "true_false_question" := by decide

/-- C6 witness: the mapping evaluated at the unrecognised token
`"ESSAY"`. -/
theorem C6_witness :
    qTypeStr "ESSAY" = "multiple_choice_question" ∧
    qTypeStrV1 "ESSAY" = "multiple_response_question" :=
  ⟨C6_type_mapping.2.2.1 "ESSAY" (by decide), C6_type_mapping.2.2.2.2 "ESSAY" (by decide)⟩

/-! ## C4: the metadata total -/

theorem encodeRowsGo_total (itemIds : Nat → String) (aids : Nat → Nat → String) :
    ∀ (rows : List Row) (i : Nat) (acc : EncodeOut),
      (encodeRowsGo itemIds aids i acc rows).total =
        rows.foldl (fun t r => PyFloat.add t (rowPointsVal r)) acc.total
  | [], _, _ => rfl
  | r :: rest, i, acc => by
    rw [encodeRowsGo, List.foldl_cons, encodeRowsGo_total itemIds aids rest]
    exact rfl

/-- C4 (amended): the metadata document's `points_possible` equals the
arithmetic sum of the per-record parsed points — recomputed by the
encoder, never read from the input — but it is rendered with Python
`str(..)` (minimal digits, e.g. `5.0` for a 5-point total), not with 2
decimal places. -/
theorem C4_total_points (itemIds : Nat → String) (aids : Nat → Nat → String)
    (rows : List Row) :
    (encodeRows itemIds aids rows).total = sumPoints rows ∧
    metaPointsText (encodeRows itemIds aids rows) = pyFloatStr (sumPoints rows) := by
  have h := encodeRowsGo_total itemIds aids rows 0 ⟨[], [], PyFloat.zero, 0⟩
  exact ⟨h, by rw [metaPointsText, encodeRows, h]; rfl⟩

/-- C4 counterexample: a single 5-point question yields `points_possible`
text `"5.0"`, not `"5.00"`. -/
theorem C4_counterexample :
    metaPointsText (encodeRows exIds exAids [fiveRow]) = "5.0" ∧
    fiveRow.points? = some "5" ∧ ("5.0" : String) ≠ "5.00" := by decide

/-! ## C1: the round trip -/

/-- C1: evaluation of encode-then-decode at the specification's own
end-to-end example row (3 plain-text options, points 5, correct answer
2), extended with a general-feedback text `"hi"`.  Type, points (to 2
decimals), body, options and 1-based correct index are all reproduced,
but the decoded `General Feedback` cell is `""` although the input
feedback was `"hi"`: the encoder passes the feedback text as a `text=`
keyword argument to `ET.Element`, which stores it as an XML *attribute*,
so the decoder finds no text content in the feedback's `mattext`. -/
theorem C1_roundtrip_eval :
    decodeItem (encodeRow 0 "iq0" exAid c1row).item =
      DecRes.row ⟨"MC", "Q1", "5.00", "2+2=?", "2", "3", "4", "5", "", "",
        "", "", "", "", "", "", "", ""⟩ ∧
    c1row.gen? = some "hi" :=
  ⟨by decide, rfl⟩

/-! ## Feedback-block helper lemmas -/

theorem addFeedback_cases (ident : String) (t : Option String) :
    addFeedback ident t = [] ∨
    addFeedback ident t =
      [xel "itemfeedback" [("ident", ident)] none
        [xel "flow_mat" [] none
          [xel "material" [] none
            [xel "mattext" [("texttype", "text/html"), ("text", "<p>" ++ t.getD "" ++ "</p>")]
              none []]]]] := by
  cases t with
  | none => exact Or.inl rfl
  | some s =>
    by_cases hs : s = ""
    · exact Or.inl (by simp [addFeedback, hs])
    · exact Or.inr (by simp [addFeedback, hs])

theorem filter_addFeedback_resproc (ident : String) (t : Option String) :
    (addFeedback ident t).filter (fun c => c.tag == "resprocessing") = [] := by
  rcases addFeedback_cases ident t with h | h <;> rw [h] <;> rfl

theorem filter_addFeedback_pres (ident : String) (t : Option String) :
    (addFeedback ident t).filter (fun c => c.tag == "presentation") = [] := by
  rcases addFeedback_cases ident t with h | h <;> rw [h] <;> rfl

theorem filter_addFeedback_self (ident : String) (t : Option String) :
    (addFeedback ident t).filter (fun c => c.tag == "itemfeedback") = addFeedback ident t := by
  rcases addFeedback_cases ident t with h | h <;> rw [h] <;> rfl

theorem filter_ite {c : Prop} [Decidable c] (A B : List XML) (p : XML → Bool) :
    (if c then A else B).filter p = if c then A.filter p else B.filter p := by
  split <;> rfl

/-! ## C5: correct-answer validation -/

/-- C5 (amended): a missing or non-numeric `Correct Answer` records a
missing/non-numeric warning; a numeric value above the option count
records a distinct out-of-range warning; but the digit string `"0"`
(value 0, also outside `[1, optionCount]`) is silently invalidated with
no warning at all.  In every such case the correct index becomes the
`-1` sentinel, the item gets no `respcondition` scoring rule, and the
encoder still emits one item per input row. -/
theorem C5_correct_answer_validation :
    (∀ (i : Nat) (raw : String) (nAns : Nat), ¬ pyIsDigit raw = true →
      correctStep i raw nAns = (-1, [EncWarning.missingCorrect (i + 2)])) ∧
    (∀ (i : Nat) (raw : String) (nAns : Nat), pyIsDigit raw = true →
      digitsVal raw.data = 0 → correctStep i raw nAns = (-1, [])) ∧
    (∀ (i : Nat) (raw : String) (nAns : Nat), pyIsDigit raw = true →
      nAns < digitsVal raw.data →
      correctStep i raw nAns = (-1, [EncWarning.rangeCorrect (i + 2) raw nAns])) ∧
    (∀ (a b : Nat) (s : String) (n : Nat),
      EncWarning.missingCorrect a ≠ EncWarning.rangeCorrect b s n) ∧
    (∀ (i : Nat) (itemId : String) (aid : Nat → String) (r : Row),
      (correctStep i (rawCorrect r) (rowAnswers i r).1.length).1 = -1 →
      respconditionsOf (encodeRow i itemId aid r).item = []) ∧
    (∀ (itemIds : Nat → String) (aids : Nat → Nat → String) (rows : List Row),
      (encodeRows itemIds aids rows).items.length = rows.length) := by
  refine ⟨?_, ?_, ?_, ?_, ?_, ?_⟩
  · intro i raw nAns h
    simp [correctStep, h]
  · intro i raw nAns h hv
    simp [correctStep, h, hv]
  · intro i raw nAns h hv
    have h0 : 0 < digitsVal raw.data := Nat.lt_of_le_of_lt (Nat.zero_le _) hv
    have h1 : ((digitsVal raw.data : Int) - 1) ≠ -1 := by omega
    have h2 : ¬ ((digitsVal raw.data : Int) - 1) < 0 := by omega
    have h3 : (nAns : Int) ≤ (digitsVal raw.data : Int) - 1 := by omega
    simp [correctStep, h, h1, h2, h3]
  · intro a b s n
    simp
  · intro i itemId aid r h
    by_cases hq : rowQType r = "TF" <;>
      simp [respconditionsOf, encodeRow, XML.childrenTagged, children_xel,
        List.filter_append, filter_addFeedback_resproc, filter_ite, h, hq, tag_xel]
  · intro itemIds aids rows
    have go : ∀ (rs : List Row) (i : Nat) (acc : EncodeOut),
        (encodeRowsGo itemIds aids i acc rs).items.length = acc.items.length + rs.length := by
      intro rs
      induction rs with
      | nil => intro i acc; simp [encodeRowsGo]
      | cons r rest ih =>
        intro i acc
        rw [encodeRowsGo, ih]
        simp
        omega
    have := go rows 0 ⟨[], [], PyFloat.zero, 0⟩
    simpa [encodeRows] using this

/-- C5 counterexample: `Correct Answer` `"0"` on a two-option MC row is
out of range `[1, 2]`, yet the encoder records no warning at all (the
digit string parses, becomes index `-1`, and skips the range check);
the item still gets no scoring rule. -/
theorem C5_counterexample :
    zeroRow.correct? = some "0" ∧
    (encodeRow 0 "iq0" exAid zeroRow).warnings = [] ∧
    (respconditionsOf (encodeRow 0 "iq0" exAid zeroRow).item).isEmpty = true := by
  refine ⟨rfl, by decide, by decide⟩

/-- C5 witness: the validation evaluated on a non-numeric and an
out-of-range value. -/
theorem C5_witness :
    correctStep 0 "x" 4 = (-1, [EncWarning.missingCorrect 2]) ∧
    correctStep 0 "6" 4 = (-1, [EncWarning.rangeCorrect 2 "6" 4]) :=
  ⟨C5_correct_answer_validation.1 0 "x" 4 (by decide),
   C5_correct_answer_validation.2.2.1 0 "6" 4 (by decide) (by decide)⟩

/-! ## C7: unknown type token -/

/-- C7 (amended): a row whose type token is neither `MC` nor `TF` gets
an unknown-type warning and its emitted metadata type defaults to
`multiple_choice_question`, but the encoder does NOT build the option
list from the `Option 1..5` columns: the option list of such an item is
empty (options are only collected in the `MC` branch). -/
theorem C7_unknown_type (i : Nat) (itemId : String) (aid : Nat → String) (r : Row)
    (h1 : rowQType r ≠ "MC") (h2 : rowQType r ≠ "TF") :
    EncWarning.unknownType (i + 2) (rowQType r) ∈ (encodeRow i itemId aid r).warnings ∧
    qTypeStr (rowQType r) = "multiple_choice_question" ∧
    (rowAnswers i r).1 = [] ∧
    optionLabelsOf (encodeRow i itemId aid r).item = [] := by
  have hA : rowAnswers i r = ([], [.unknownType (i + 2) (rowQType r)]) := by
    rw [rowAnswers]
    simp [h1, h2]
  refine ⟨?_, by rw [qTypeStr, if_neg h2], by rw [hA], ?_⟩
  · rw [encodeRow_warnings, hA]
    simp
  · simp [optionLabelsOf, encodeRow, XML.childrenTagged, children_xel,
      List.filter_append, filter_addFeedback_pres, filter_ite, hA, h2, tag_xel]

/-- C7 counterexample: a row with type token `"XX"` and non-empty
`Option 1` still produces an item with an empty option list, refuting
"still attempts to build the option list". -/
theorem C7_counterexample :
    c7row.type? = some "XX" ∧ c7row.opt? 1 = some "A" ∧
    EncWarning.unknownType 2 "XX" ∈ (encodeRow 0 "iq0" exAid c7row).warnings ∧
    (optionLabelsOf (encodeRow 0 "iq0" exAid c7row).item).isEmpty = true := by
  refine ⟨rfl, rfl, by decide, by decide⟩

/-- C7 witness: the unknown-type behaviour evaluated at the concrete
row with token `"XX"`. -/
theorem C7_witness :
    EncWarning.unknownType 2 (rowQType c7row) ∈ (encodeRow 0 "iq0" exAid c7row).warnings ∧
    qTypeStr (rowQType c7row) = "multiple_choice_question" ∧
    (rowAnswers 0 c7row).1 = [] ∧
    optionLabelsOf (encodeRow 0 "iq0" exAid c7row).item = [] :=
  C7_unknown_type 0 "iq0" exAid c7row (by decide) (by decide)

/-! ## C9: no per-option feedback for TF rows -/

/-- C9: for a TF row the encoder never emits a per-option
(`{optionIdentifier}_fb`) feedback block, even when `Feedback 1..5`
columns are non-empty; every feedback block of a TF item is one of the
fixed `general_fb` / `correct_fb` / `general_incorrect_fb` blocks. -/
theorem C9_tf_no_per_option_feedback (i : Nat) (itemId : String) (aid : Nat → String)
    (r : Row) (h : rowQType r = "TF") :
    (itemFeedbacksOf (encodeRow i itemId aid r).item).all
      (fun b => b.attr "ident" == some "general_fb" || b.attr "ident" == some "correct_fb" ||
        b.attr "ident" == some "general_incorrect_fb") = true := by
  have hall : ∀ (idt : String) (t : Option String),
      idt = "general_fb" ∨ idt = "correct_fb" ∨ idt = "general_incorrect_fb" →
      (addFeedback idt t).all
        (fun b => b.attr "ident" == some "general_fb" || b.attr "ident" == some "correct_fb" ||
          b.attr "ident" == some "general_incorrect_fb") = true := by
    intro idt t hid
    rcases addFeedback_cases idt t with hh | hh <;> rw [hh]
    · rfl
    · rcases hid with h | h | h <;> subst h <;> rfl
  simp only [itemFeedbacksOf, encodeRow, XML.childrenTagged, children_xel, h,
    List.filter_append, filter_addFeedback_self]
  simp [List.all_append, hall "general_fb" r.gen? (Or.inl rfl),
    hall "correct_fb" r.cor? (Or.inr (Or.inl rfl)),
    hall "general_incorrect_fb" r.inc? (Or.inr (Or.inr rfl)), tag_xel]

/-- C9 witness: a TF row with non-empty `Feedback 1` and general
feedback; every emitted feedback block carries one of the three fixed
identifiers. -/
theorem C9_witness :
    tfRow.fb? 1 = some "x" ∧ rowQType tfRow = "TF" ∧
    (itemFeedbacksOf (encodeRow 0 "iq0" exAid tfRow).item).all
      (fun b => b.attr "ident" == some "general_fb" || b.attr "ident" == some "correct_fb" ||
        b.attr "ident" == some "general_incorrect_fb") = true :=
  ⟨rfl, by decide, C9_tf_no_per_option_feedback 0 "iq0" exAid tfRow (by decide)⟩

/-! ## Decoder inversion lemmas -/

theorem decodeItem_skip_supported {x : XML} (h : decodeItem x = DecRes.skip) :
    supportedB x = false := by
  by_cases hs : supportedB x
  · exfalso
    unfold decodeItem at h
    cases hp : pointsCellOf (metaFields x) <;> rw [hp] at h <;> simp [hs] at h
  · simpa using hs

theorem decodeItem_row_supported {x : XML} {r : OutRow} (h : decodeItem x = DecRes.row r) :
    supportedB x = true := by
  by_cases hs : supportedB x
  · simpa using hs
  · exfalso
    unfold decodeItem at h
    cases hp : pointsCellOf (metaFields x) <;> rw [hp] at h <;> simp [hs] at h

theorem decodeItem_row_build {x : XML} {r : OutRow} (h : decodeItem x = DecRes.row r) :
    ∃ pts, pointsCellOf (metaFields x) = some pts ∧ r = buildRow x pts := by
  have hs := decodeItem_row_supported h
  unfold decodeItem at h
  cases hp : pointsCellOf (metaFields x) with
  | none => rw [hp] at h; simp at h
  | some pts =>
    rw [hp] at h
    simp [hs] at h
    exact ⟨pts, rfl, h.symm⟩

/-! ## C8: unsupported declared types are skipped and counted -/

/-- C8: decoding a list of items emits a row exactly for the items
whose declared `question_type` passes the support check (the four
accepted values); every other item — e.g. one declared
`essay_question` — contributes no row and is counted in the skipped
total; the remaining items are still converted, in order. -/
theorem C8_skip_unsupported : ∀ (xs : List XML) (rows : List OutRow) (n : Nat),
    decodeItems xs = some (rows, n) →
    n = (xs.filter (fun x => !supportedB x)).length ∧
    rows.length + n = xs.length ∧
    rows = xs.filterMap (fun x =>
      match decodeItem x with
      | .row r => some r
      | _ => none) := by
  intro xs
  induction xs with
  | nil =>
    intro rows n h
    rw [decodeItems] at h
    obtain ⟨h1, h2⟩ : ([] : List OutRow) = rows ∧ 0 = n := by
      constructor <;> [exact congrArg Prod.fst (Option.some.inj h); exact congrArg Prod.snd (Option.some.inj h)]
    subst h1; subst h2
    exact ⟨rfl, rfl, rfl⟩
  | cons x xs ih =>
    intro rows n h
    rw [decodeItems] at h
    cases hd : decodeItem x with
    | err => rw [hd] at h; exact absurd h (by simp)
    | skip =>
      rw [hd] at h
      obtain ⟨⟨rs, m⟩, hp, hpe⟩ := Option.map_eq_some'.mp h
      have h1 : rows = rs := (congrArg Prod.fst hpe).symm
      have h2 : n = m + 1 := (congrArg Prod.snd hpe).symm
      obtain ⟨ih1, ih2, ih3⟩ := ih rs m hp
      have hsup := decodeItem_skip_supported hd
      subst h1
      subst h2
      refine ⟨?_, by simp [List.length_cons]; omega, ?_⟩
      · rw [List.filter_cons, hsup]
        simpa using ih1
      · rw [List.filterMap_cons, hd]
        exact ih3
    | row r =>
      rw [hd] at h
      obtain ⟨⟨rs, m⟩, hp, hpe⟩ := Option.map_eq_some'.mp h
      have h1 : rows = r :: rs := (congrArg Prod.fst hpe).symm
      have h2 : n = m := (congrArg Prod.snd hpe).symm
      obtain ⟨ih1, ih2, ih3⟩ := ih rs m hp
      have hsup := decodeItem_row_supported hd
      subst h1
      subst h2
      refine ⟨?_, by simp [List.length_cons]; omega, ?_⟩
      · rw [List.filter_cons, hsup]
        simpa using ih1
      · rw [List.filterMap_cons, hd, ih3]

/-- C8 witness: an `essay_question` item followed by a supported item —
one skip counted, one row emitted. -/
theorem C8_witness :
    qtypeMetaOf (metaFields essayItem) = some "essay_question" ∧
    decodeItems [essayItem, ptsItem (some "2")] = some ([ptsOut], 1) ∧
    1 = ([essayItem, ptsItem (some "2")].filter (fun x => !supportedB x)).length ∧
    [ptsOut].length + 1 = [essayItem, ptsItem (some "2")].length :=
  ⟨by decide, by decide,
   (C8_skip_unsupported [essayItem, ptsItem (some "2")] [ptsOut] 1 (by decide)).1,
   (C8_skip_unsupported [essayItem, ptsItem (some "2")] [ptsOut] 1 (by decide)).2.1⟩

/-! ## C10: unparseable points on decode -/

/-- C10 (amended): when the `points_possible` entry carries text that
`float(..)` cannot parse, the decoder emits the item's row with the
`Points` cell `"0.00"` (the `ValueError` is caught); but a
`points_possible` `fieldentry` element that is present with no text at
all makes `float(None)` raise an uncaught `TypeError`, aborting the
conversion (see the counterexample). -/
theorem C10_unparseable_points (s : String) (h : pyFloat? s = none) :
    decodeItem (ptsItem (some s)) = DecRes.row (buildRow (ptsItem (some s)) "0.00") ∧
    (buildRow (ptsItem (some s)) "0.00").pointsCol = "0.00" := by
  have key : ∀ o : Option PyFloat, o = none →
      (match o with
       | some v => some (format2f v)
       | none => some "0.00") = (some "0.00" : Option String) := by
    intro o ho
    rw [ho]
  have hm : pointsCellOf (metaFields (ptsItem (some s))) = some "0.00" := key (pyFloat? s) h
  constructor
  · unfold decodeItem
    rw [hm]
    have hs : supportedB (ptsItem (some s)) = true := rfl
    simp [hs]
  · rfl

/-- C10 counterexample: a `points_possible` entry element present with
no text aborts the conversion (uncaught `TypeError` from
`float(None)`) instead of yielding `Points = "0.00"`. -/
theorem C10_counterexample :
    decodeItem (ptsItem none) = DecRes.err := by decide

/-- C10 witness: the unparseable text `"abc"` yields a row with
`Points = "0.00"`. -/
theorem C10_witness :
    pyFloat? "abc" = none ∧
    decodeItem (ptsItem (some "abc")) = DecRes.row (buildRow (ptsItem (some "abc")) "0.00") ∧
    (buildRow (ptsItem (some "abc")) "0.00").pointsCol = "0.00" :=
  ⟨by decide, (C10_unparseable_points "abc" (by decide)).1,
   (C10_unparseable_points "abc" (by decide)).2⟩

/-! ## C3: the TF re-detection heuristic -/

theorem two_options_iff (l : List String) :
    (l.length = 2 ∧ "true" ∈ l ∧ "false" ∈ l) ↔
      (l = ["true", "false"] ∨ l = ["false", "true"]) := by
  constructor
  · rintro ⟨hl, ht, hf⟩
    obtain ⟨a, b, rfl⟩ := List.length_eq_two.mp hl
    simp only [List.mem_cons, List.not_mem_nil, or_false] at ht hf
    rcases ht with rfl | rfl <;> rcases hf with h | h <;> simp_all
  · rintro (rfl | rfl) <;> refine ⟨rfl, by simp, by simp⟩

/-- C3: for every item the decoder emits a row for, the row's `Type`
cell is `TF` exactly when the item has two options whose cleaned,
lowercased texts form the set containing `"true"` and `"false"`
(regardless of the stored `question_type` metadata, which only
participates in the skip check), and otherwise the cell is `MC`. -/
theorem C3_tf_heuristic (x : XML) (row : OutRow) (h : decodeItem x = DecRes.row row) :
    (row.typeCol = "TF" ↔
      ((answerTextsOf x).map pyLower = ["true", "false"] ∨
       (answerTextsOf x).map pyLower = ["false", "true"])) ∧
    (row.typeCol = "TF" ∨ row.typeCol = "MC") := by
  obtain ⟨pts, hp, rfl⟩ := decodeItem_row_build h
  have htc : (buildRow x pts).typeCol = typeCellOf x := rfl
  rw [htc]
  unfold typeCellOf
  set lowers := (answerTextsOf x).map pyLower with hl
  have hiff : (lowers.length == 2 && lowers.contains "true" && lowers.contains "false") = true ↔
      (lowers.length = 2 ∧ "true" ∈ lowers ∧ "false" ∈ lowers) := by
    simp [List.contains, List.elem_iff, Bool.and_eq_true, beq_iff_eq, and_assoc]
  by_cases hb : (lowers.length == 2 && lowers.contains "true" && lowers.contains "false") = true
  · rw [if_pos hb]
    exact ⟨⟨fun _ => (two_options_iff lowers).mp (hiff.mp hb), fun _ => rfl⟩, Or.inl rfl⟩
  · rw [if_neg hb]
    refine ⟨⟨fun hMC => absurd hMC (by decide), fun hcond => ?_⟩, Or.inr rfl⟩
    exact absurd (hiff.mpr ((two_options_iff lowers).mpr hcond)) hb

/-- C3 witness: an item with options `True` / `False` whose stored
metadata reads `multiple_choice_question` still decodes with
`Type = "TF"`. -/
theorem C3_witness :
    qtypeMetaOf (metaFields corruptItem) = some "multiple_choice_question" ∧
    decodeItem corruptItem = DecRes.row corruptOut ∧
    corruptOut.typeCol = "TF" :=
  ⟨by decide, by decide,
   (C3_tf_heuristic corruptItem corruptOut (by decide)).1.mpr (by decide)⟩

/-! ## C2: the text-cleaning contract -/

theorem stripTagsF_no_lt : ∀ (n : Nat) (cs : List Char), '<' ∉ cs → stripTagsF n cs = cs
  | 0, _, _ => rfl
  | _ + 1, [], _ => rfl
  | n + 1, c :: rest, h => by
    have hc : ¬ c = '<' := fun hh => h (hh ▸ List.mem_cons_self c rest)
    rw [stripTagsF, if_neg hc,
      stripTagsF_no_lt n rest (fun hm => h (List.mem_cons_of_mem c hm))]

theorem unescF_no_amp : ∀ (n : Nat) (cs : List Char), '&' ∉ cs → unescF n cs = cs
  | 0, _, _ => rfl
  | _ + 1, [], _ => rfl
  | n + 1, c :: rest, h => by
    have hc : ¬ c = '&' := fun hh => h (hh ▸ List.mem_cons_self c rest)
    rw [unescF, if_neg hc,
      unescF_no_amp n rest (fun hm => h (List.mem_cons_of_mem c hm))]

theorem pyUnescape_no_amp (s : String) (h : '&' ∉ s.data) : pyUnescape s = s := by
  unfold pyUnescape
  rw [if_neg h]

theorem head?_dropWhile (p : Char → Bool) :
    ∀ (l : List Char) (c : Char), (l.dropWhile p).head? = some c → p c = false
  | [], c, h => by simp at h
  | a :: rest, c, h => by
    rw [List.dropWhile_cons] at h
    by_cases hpa : p a = true
    · rw [if_pos hpa] at h
      exact head?_dropWhile p rest c h
    · rw [if_neg hpa] at h
      obtain rfl : a = c := by simpa using h
      simpa using hpa

theorem dropWhile_eq_self_of_head (p : Char → Bool) (l : List Char)
    (h : ∀ c, l.head? = some c → p c = false) : l.dropWhile p = l := by
  cases l with
  | nil => rfl
  | cons a rest => simp [List.dropWhile_cons, h a rfl]

theorem dropWhile_self_idem (p : Char → Bool) (l : List Char) :
    (l.dropWhile p).dropWhile p = l.dropWhile p :=
  dropWhile_eq_self_of_head p _ (head?_dropWhile p l)

theorem getLast?_dropWhile (p : Char → Bool) :
    ∀ l : List Char, l.dropWhile p = [] ∨ (l.dropWhile p).getLast? = l.getLast?
  | [] => Or.inl rfl
  | a :: rest => by
    rw [List.dropWhile_cons]
    by_cases hpa : p a = true
    · rw [if_pos hpa]
      cases rest with
      | nil => exact Or.inl rfl
      | cons b rest2 =>
        rcases getLast?_dropWhile p (b :: rest2) with h | h
        · exact Or.inl h
        · exact Or.inr (by rw [h, List.getLast?_cons_cons])
    · rw [if_neg hpa]
      exact Or.inr rfl

theorem pyStripList_idem (cs : List Char) : pyStripList (pyStripList cs) = pyStripList cs := by
  unfold pyStripList
  have hA : ((((cs.dropWhile Char.isWhitespace).reverse.dropWhile
      Char.isWhitespace).reverse).dropWhile Char.isWhitespace) =
      ((cs.dropWhile Char.isWhitespace).reverse.dropWhile Char.isWhitespace).reverse := by
    apply dropWhile_eq_self_of_head
    intro d hd
    rw [List.head?_reverse] at hd
    rcases getLast?_dropWhile Char.isWhitespace
        (cs.dropWhile Char.isWhitespace).reverse with h0 | h0
    · rw [h0] at hd
      simp at hd
    · rw [h0, List.getLast?_reverse] at hd
      exact head?_dropWhile Char.isWhitespace cs d hd
  rw [hA, List.reverse_reverse, dropWhile_self_idem]

theorem pyStrip_idem (s : String) : pyStrip (pyStrip s) = pyStrip s := by
  unfold pyStrip
  rw [show (String.mk (pyStripList s.data)).data = pyStripList s.data from rfl,
    pyStripList_idem]

/-- C2 (amended): the shared text-cleaning function returns `""` for
absent (`None`) and empty input, and it is a pure function; but it is
NOT idempotent in general — removing a malformed tag can expose a new
tag (or unescaping can expose new entities/tags), see the
counterexample.  It is idempotent on every input whose cleaned result
contains no `<` and no `&` character. -/
theorem C2_clean_text_contract :
    clean_text none = "" ∧ clean_text (some "") = "" ∧
    (∀ s : String, '<' ∉ (clean_text (some s)).data → '&' ∉ (clean_text (some s)).data →
      clean_text (some (clean_text (some s))) = clean_text (some s)) := by
  refine ⟨rfl, by simp [clean_text], ?_⟩
  intro s hlt hamp
  by_cases hs : s = ""
  · subst hs
    simp [clean_text]
  · set t := clean_text (some s) with ht
    have htp : t = pyStrip (pyUnescape (String.mk (stripTags s.data))) := by
      rw [ht]
      simp only [clean_text]
      rw [if_neg hs]
    by_cases h0 : t = ""
    · rw [h0]
      simp [clean_text]
    · show clean_text (some t) = t
      simp only [clean_text]
      rw [if_neg h0]
      have h1 : stripTags t.data = t.data := by
        unfold stripTags
        exact stripTagsF_no_lt _ _ hlt
      rw [h1]
      rw [show String.mk t.data = t from rfl]
      rw [pyUnescape_no_amp _ hamp]
      rw [htp, pyStrip_idem]

/-- C2 counterexample: cleaning is not idempotent — `"<x<y>>"` cleans
to `"<x>"` (the regex removes only `<y>`), and cleaning again removes
the newly exposed tag, giving `""`. -/
theorem C2_counterexample :
    clean_text (some "<x<y>>") = "<x>" ∧
    clean_text (some (clean_text (some "<x<y>>"))) = "" ∧
    ("<x>" : String) ≠ "" := by
  refine ⟨by decide, by decide, by decide⟩

/-- C2 witness: idempotence evaluated at `" ok "`, whose cleaned form
has no `<` and no `&`. -/
theorem C2_witness :
    '<' ∉ (clean_text (some " ok ")).data ∧
    clean_text (some (clean_text (some " ok "))) = clean_text (some " ok ") :=
  ⟨by decide, C2_clean_text_contract.2.2 " ok " (by decide) (by decide)⟩
